import Mathlib

/-!
Verification development for the cheminfo-mcp-collection repository.

Shallow embedding of the operative parts of the Python sources:
  - `src/ChEMBL/chembl_server.py` : the `async_timeout` / `error_handler`
    decorator pair that guards every ChEMBL tool coroutine;
  - `src/PDB/pdb_server.py` : `validate_pdb_id`, `get_structure_info`,
    `download_structure`, `get_ligands`, and the query construction in
    `search_structures` (base full-text node, optional experimental-method
    and resolution-range filters, AND grouping, pagination);
  - `src/sureChEMBL/surechembl_server.py` : `categorize_frequency`,
    `calculate_rarity_score`, the parameter construction of
    `search_patents`, and `export_chemicals`;
  - `src/OpenTarget/opentarget_server.py` : `format_target_detailed`;
  - `src/PubChem/pubchem_server.py` : `compound_to_dict`.

Machine reals (Python floats) are modelled as `ℚ` where values are only
carried and compared, and as `ℝ` where `math.log10` arithmetic occurs.
Python exceptions are modelled with `Except` over an explicit exception
type; functions that record network traffic return the list of issued
requests next to their result.
-/

/-- A Python exception, as far as the guarded code distinguishes them:
`TimeoutError` (raised by `async_timeout`) versus any other `Exception`.
Both carry the original message. -/
inductive PyExc where
  | timeoutError (msg : String)
  | exc (msg : String)
  deriving DecidableEq, Repr

/-- A `requests.exceptions.RequestException` (network failure, non-2xx
status surfaced by `raise_for_status`, or a malformed-JSON body, which in
`requests` is a `RequestException` subclass). Carries `str(e)`. -/
inductive ReqExc where
  | mk (msg : String)
  deriving DecidableEq, Repr

/-- One awaited ChEMBL coroutine: it runs for `duration` seconds and then
either returns a value or raises.  `duration` is the wall-clock time the
underlying work would take if awaited to completion. -/
structure AsyncOp (α : Type) where
  duration : ℚ
  outcome : Except PyExc α

/-- `async_timeout(seconds)` from `src/ChEMBL/chembl_server.py` (lines
28-38): `asyncio.wait_for(func(...), timeout=seconds)`; a coroutine that
finishes within the deadline has its outcome (value or exception)
delivered unchanged, one that does not is abandoned and a fresh
`TimeoutError` with the documented message is raised after `seconds`. -/
def async_timeout (seconds : Int) (op : AsyncOp α) : AsyncOp α :=
  if op.duration ≤ (seconds : ℚ) then op
  else
    { duration := (seconds : ℚ),
      outcome := .error (.timeoutError s!"Function execution exceeded {seconds} seconds") }

/-- `error_handler` from `src/ChEMBL/chembl_server.py` (lines 41-56):
awaits the wrapped coroutine inside `try`, logs the elapsed time on
success and returns the result; on `TimeoutError` it logs and re-raises
(`raise`), and on any other `Exception` it also logs and re-raises. -/
def error_handler (op : AsyncOp α) : AsyncOp α :=
  { duration := op.duration,
    outcome :=
      match op.outcome with
      | .ok a => .ok a
      | .error (.timeoutError m) => .error (.timeoutError m)
      | .error (.exc m) => .error (.exc m) }

/-- The decorator stack `@error_handler` over `@async_timeout(seconds)`
placed on every ChEMBL tool coroutine. -/
def guarded (seconds : Int) (op : AsyncOp α) : AsyncOp α :=
  error_handler (async_timeout seconds op)

/-- `categorize_frequency` from `src/sureChEMBL/surechembl_server.py`
(lines 49-64). -/
def categorize_frequency (frequency : Int) : String :=
  if frequency = 0 then "Not found"
  else if frequency = 1 then "Unique"
  else if frequency ≤ 10 then "Very rare"
  else if frequency ≤ 100 then "Rare"
  else if frequency ≤ 1000 then "Uncommon"
  else if frequency ≤ 10000 then "Common"
  else "Very common"

/-- `calculate_rarity_score` from `src/sureChEMBL/surechembl_server.py`
(lines 66-74), with `math.log10` read as the real base-10 logarithm. -/
noncomputable def calculate_rarity_score (frequency : Int) : ℝ :=
  if frequency = 0 then 0.0
  else if frequency = 1 then 1.0
  else max 0.0 (1.0 - Real.logb 10 (frequency : ℝ) / 6.0)

/-! ### JSON values and Python dict primitives -/

/-- A JSON-compatible Python value (the data crossing every boundary in
this repository is JSON-compatible per the spec). Numbers are modelled
as rationals. -/
inductive PyVal where
  | pyNone
  | pyBool (b : Bool)
  | pyNum (q : ℚ)
  | pyStr (s : String)
  | pyList (xs : List PyVal)
  | pyDict (kvs : List (String × PyVal))

/-- `d.get(k, dflt)` on a Python dict, with the dict as an ordered
association list (first binding wins, as Python keys are unique). -/
def dictGet (d : List (String × PyVal)) (k : String) (dflt : PyVal) : PyVal :=
  match d.find? (fun p => p.1 = k) with
  | some p => p.2
  | none => dflt

/-- `{"error": msg}` — the structured error value every wrapper returns. -/
def errObj (msg : String) : PyVal :=
  PyVal.pyDict [("error", PyVal.pyStr msg)]

/-! ### Python `float()` on strings

`search_structures` calls `float(parts[i])` on the halves of the
resolution range. We model Python's `float` on ordinary finite decimal
literals: optional surrounding whitespace, an optional sign, digits with
an optional fractional part, and an optional decimal exponent. (The
special spellings `inf`/`nan`, and digit-group underscores, fall outside
the rational model and are treated as unparsable.) -/

/-- Numeric value of a digit string. -/
def digitsVal (ds : List Char) : ℕ :=
  ds.foldl (fun a c => 10 * a + (c.toNat - '0'.toNat)) 0

/-- An optional leading sign: its value, and what follows it. -/
def leadingSign (cs : List Char) : Int × List Char :=
  if cs.head? = some '-' then (-1, cs.tail)
  else if cs.head? = some '+' then (1, cs.tail)
  else (1, cs)

/-- Parse an optional exponent part (`e`/`E`, optional sign, digits) and
scale the mantissa; anything left over means the literal is malformed. -/
def parseExpPart (cs : List Char) (m : ℚ) : Option ℚ :=
  match cs with
  | [] => some m
  | c :: r =>
    if c = 'e' ∨ c = 'E' then
      let sr := leadingSign r
      let ds := sr.2.takeWhile Char.isDigit
      let r3 := sr.2.dropWhile Char.isDigit
      if ds.isEmpty ∨ ¬ r3.isEmpty then none
      else some (m * (10 : ℚ) ^ (sr.1 * (digitsVal ds : Int)))
    else none

/-- Parse an unsigned float literal: digits, optionally a point and more
digits, optionally an exponent. -/
def parseUnsigned (cs : List Char) : Option ℚ :=
  let ip := cs.takeWhile Char.isDigit
  let r1 := cs.dropWhile Char.isDigit
  match r1 with
  | '.' :: r2 =>
    let fp := r2.takeWhile Char.isDigit
    let r3 := r2.dropWhile Char.isDigit
    if ip.isEmpty ∧ fp.isEmpty then none
    else parseExpPart r3 ((digitsVal (ip ++ fp) : ℚ) / (10 : ℚ) ^ fp.length)
  | _ =>
    if ip.isEmpty then none else parseExpPart r1 (digitsVal ip : ℚ)

/-- The whitespace `float()` strips around a literal. -/
def isPySpace (c : Char) : Bool :=
  c = ' ' ∨ c = '\t' ∨ c = '\n' ∨ c = '\r' ∨ c = '\x0B' ∨ c = '\x0C'

/-- Strip leading and trailing whitespace from a character list. -/
def pyStrip (cs : List Char) : List Char :=
  ((cs.dropWhile isPySpace).reverse.dropWhile isPySpace).reverse

/-- Python `float(s)`: strip whitespace, optional sign, unsigned literal. -/
def pyFloat? (s : String) : Option ℚ :=
  match pyStrip s.toList with
  | [] => none
  | '+' :: r => parseUnsigned r
  | '-' :: r => (parseUnsigned r).map (fun q => -q)
  | cs => parseUnsigned cs

/-- Python `s.split('-')`: the maximal runs between the separator
occurrences, in order; the empty string yields `[""]`, and leading,
trailing or adjacent separators yield empty parts. -/
def splitDash : List Char → List (List Char)
  | [] => [[]]
  | c :: r =>
    if c = '-' then [] :: splitDash r
    else
      match splitDash r with
      | [] => [[c]]
      | g :: gs => (c :: g) :: gs

/-- `resolution_range.split('-')` as a string operation. -/
def pySplitDash (s : String) : List String :=
  (splitDash s.toList).map String.mk

/-! ### PDB search query construction (`src/PDB/pdb_server.py`) -/

/-- The `parameters.value` of a terminal clause: either a plain string or
the range object `{from, to, include_lower, include_upper}`. -/
inductive QueryValue where
  | str (s : String)
  | range (lo hi : ℚ) (include_lower include_upper : Bool)
  deriving DecidableEq, Repr

/-- A node of the structured search query the PDB server composes:
a terminal clause `{type: terminal, service, parameters}` (with optional
`attribute`/`operator` parameters), the sequence-similarity terminal with
its fixed `evalue_cutoff`, or a boolean group over ordered child nodes. -/
inductive QueryNode where
  | terminal (service : String) (attr : Option String)
      (op : Option String) (value : QueryValue)
  | seqTerminal (service : String) (evalue_cutoff identity_cutoff : ℚ)
      (target : String) (value : String)
  | group (logical_operator : String) (nodes : List QueryNode)

/-- Whether a node is a terminal (non-group) clause. -/
def QueryNode.isTerminal : QueryNode → Bool
  | .terminal _ _ _ _ => true
  | .seqTerminal _ _ _ _ _ => true
  | .group _ _ => false

/-- The base full-text node `{"type": "terminal", "service": "full_text",
"parameters": {"value": query}}` of `search_structures` (lines 63-69). -/
def fullTextNode (query : String) : QueryNode :=
  .terminal "full_text" none none (.str query)

/-- The experimental-method filter of `search_structures` (lines 88-97):
under Python truthiness, `if experimental_method:` skips both a missing
and an empty argument. -/
def methodFilter (experimental_method : Option String) : List QueryNode :=
  match experimental_method with
  | none => []
  | some m =>
    if m.isEmpty then []
    else [.terminal "text" (some "exptl.method") (some "exact_match") (.str m)]

/-- The range filter node `search_structures` attaches for a parsed
resolution range (lines 104-117). -/
def resolutionNode (lo hi : ℚ) : QueryNode :=
  .terminal "text" (some "rcsb_entry_info.resolution_combined") (some "range")
    (.range lo hi true true)

/-- The resolution-range filter of `search_structures` (lines 99-119):
`resolution_range.split('-')` must give exactly two parts and both must
survive `float(...)`; a `ValueError` is logged as a warning and the
filter contributes nothing. -/
def resolutionFilter (resolution_range : String) : List QueryNode :=
  match pySplitDash resolution_range with
  | [p0, p1] =>
    match pyFloat? p0, pyFloat? p1 with
    | some lo, some hi => [resolutionNode lo hi]
    | _, _ => []
  | _ => []

/-- Lines 99-119 guarded by Python truthiness: `if resolution_range:`
skips a missing or empty argument. -/
def resolutionFilterOpt (resolution_range : Option String) : List QueryNode :=
  match resolution_range with
  | none => []
  | some s => if s.isEmpty then [] else resolutionFilter s

/-- The ordered filter list `search_structures` accumulates (lines 87-119):
the experimental-method filter, then the resolution filter. -/
def search_structures_filters (experimental_method resolution_range : Option String) :
    List QueryNode :=
  methodFilter experimental_method ++ resolutionFilterOpt resolution_range

/-- The composed search request of `search_structures` (lines 62-126):
base query, `return_type`, `paginate` block with `start`/`rows`, and the
single `(sort_by, "desc")` sort pair; filters, when any, wrap the base
node in a group with `logical_operator` "and". -/
structure SearchRequestQ where
  query : QueryNode
  return_type : String
  start : Int
  rows : Int
  results_content_type : List String
  sort_by : String
  direction : String

/-- Query construction of `search_structures` (`src/PDB/pdb_server.py`
lines 62-126). -/
def search_structures_query (query : String) (limit : Int) (sort_by : String)
    (experimental_method resolution_range : Option String) : SearchRequestQ :=
  let base := fullTextNode query
  let filters := search_structures_filters experimental_method resolution_range
  { query := if filters.isEmpty then base else .group "and" (base :: filters),
    return_type := "entry",
    start := 0,
    rows := min limit 1000,
    results_content_type := ["experimental"],
    sort_by := sort_by,
    direction := "desc" }

/-- Request execution of `search_structures` (lines 128-133): the POST of
the composed query is modelled by `post`, which yields the parsed JSON
body or raises a `RequestException`; the `except` clause converts the
exception into `{"error": f"Failed to search structures: {e}"}`. -/
def search_structures_run (post : SearchRequestQ → Except ReqExc PyVal)
    (query : String) (limit : Int) (sort_by : String)
    (experimental_method resolution_range : Option String) : PyVal :=
  match post (search_structures_query query limit sort_by
      experimental_method resolution_range) with
  | .ok payload => payload
  | .error (.mk m) => errObj ("Failed to search structures: " ++ m)

/-- Query construction of `search_by_uniprot` (`src/PDB/pdb_server.py`
lines 166-187): exact-match terminal, `start = 0`, `rows = min(limit,
1000)`, no sort block. -/
structure UniprotRequestQ where
  query : QueryNode
  return_type : String
  start : Int
  rows : Int
  results_content_type : List String

/-- `search_by_uniprot`'s composed request (lines 169-187). -/
def search_by_uniprot_query (uniprot_id : String) (limit : Int) : UniprotRequestQ :=
  { query := .terminal "text"
      (some "rcsb_polymer_entity_container_identifiers.reference_sequence_identifiers.database_accession")
      (some "exact_match") (.str uniprot_id),
    return_type := "entry",
    start := 0,
    rows := min limit 1000,
    results_content_type := ["experimental"] }

/-- `search_by_sequence`'s composed request (`src/PDB/pdb_server.py`
lines 247-269): sequence-service terminal with the fixed
`evalue_cutoff = 0.1` and the caller's `identity_cutoff`. -/
def search_by_sequence_query (sequence : String) (limit : Int)
    (identity_cutoff : ℚ) : UniprotRequestQ :=
  { query := .seqTerminal "sequence" (1/10) identity_cutoff
      "pdb_protein_sequence" sequence,
    return_type := "entry",
    start := 0,
    rows := min limit 1000,
    results_content_type := ["experimental"] }

/-! ### sureChEMBL patent search parameters and export
(`src/sureChEMBL/surechembl_server.py`) -/

/-- The query parameters `search_patents` sends to `search/content`
(lines 94-106): the office-filtered query string, the 1-based `page`
derived from `offset` and `limit` by floor division, and `itemsPerPage`. -/
structure PatentSearchParams where
  query : String
  page : Int
  itemsPerPage : Int
  deriving DecidableEq, Repr

/-- Parameter construction of `search_patents` (lines 94-106):
`page = (offset // limit) + 1` (Python floor division — a zero `limit`
raises `ZeroDivisionError`, caught by the surrounding `except` clause),
`full_query = f"{query} AND ((pnctry:({patent_offices})))"`, and
`itemsPerPage = min(limit, 1000)`. -/
def search_patents_params (query : String) (limit offset : Int)
    (patent_offices : String) : Except PyExc PatentSearchParams :=
  if limit = 0 then .error (.exc "integer division or modulo by zero")
  else .ok
    { query := query ++ " AND ((pnctry:(" ++ patent_offices ++ ")))",
      page := Int.fdiv offset limit + 1,
      itemsPerPage := min limit 1000 }

/-- The start offset a 1-based `page` of size `itemsPerPage` denotes:
the number of results skipped before the first delivered one. -/
def patents_start_offset (p : PatentSearchParams) : Int :=
  (p.page - 1) * p.itemsPerPage

/-- One call to the `export/chemistry` endpoint as issued by
`export_chemicals` (lines 412-417). -/
structure ExportCall where
  endpoint : String
  chemIDs : String
  output_type : String
  kind : String
  deriving DecidableEq, Repr

/-- `export_chemicals` from `src/sureChEMBL/surechembl_server.py`
(lines 392-430): more than 100 IDs short-circuit to an error dict before
any request; otherwise the IDs are comma-joined and one
`export/chemistry` request is issued. The HTTP + base64 pipeline outside
the function is the parameter pair `api`/`b64encode` (payloads of an
abstract binary type `β`); an exception from the request is converted to
`{"error": f"Failed to export chemicals: {e}"}`. The function returns
the list of issued calls next to its result. -/
def export_chemicals {β : Type} (api : ExportCall → Except ReqExc β)
    (b64encode : β → String) (chemical_ids : List String)
    (output_type kind : String) : List ExportCall × PyVal :=
  if chemical_ids.length > 100 then
    ([], errObj "Maximum 100 chemical IDs allowed per export")
  else
    let chem_ids_str := String.intercalate "," chemical_ids
    let call : ExportCall := ⟨"export/chemistry", chem_ids_str, output_type, kind⟩
    ([call],
      match api call with
      | .ok data => PyVal.pyDict
          [("chemical_ids", .pyList (chemical_ids.map .pyStr)),
           ("output_type", .pyStr output_type),
           ("kind", .pyStr kind),
           ("export_data", .pyStr ("data:application/zip;base64," ++ b64encode data)),
           ("message", .pyStr s!"Successfully exported {chemical_ids.length} chemicals in {output_type} format")]
      | .error (.mk m) => errObj ("Failed to export chemicals: " ++ m))

/-! ### PDB identifier validation and per-structure operations
(`src/PDB/pdb_server.py`) -/

/-- ASCII model of Python `str.lower()` (the PDB identifiers at play are
ASCII; `Char.toLower` lowers exactly the basic latin letters). -/
def py_lower (s : String) : String := s.toLower

/-- ASCII model of Python `str.upper()`. -/
def py_upper (s : String) : String := s.toUpper

/-- Whether a character list matches `^[0-9][a-zA-Z0-9]{3}$`: one digit
then three alphanumerics; `$` also tolerates one trailing newline. The
`re.IGNORECASE` flag is redundant, the class already has both cases. -/
def pdb_pattern_chars : List Char → Bool
  | [c0, c1, c2, c3] =>
    c0.isDigit && c1.isAlphanum && c2.isAlphanum && c3.isAlphanum
  | [c0, c1, c2, c3, c4] =>
    (c4 = '\n') && (c0.isDigit && c1.isAlphanum && c2.isAlphanum && c3.isAlphanum)
  | _ => false

/-- `validate_pdb_id` from `src/PDB/pdb_server.py` (lines 26-28):
`bool(re.match(r'^[0-9][a-zA-Z0-9]{3}$', pdb_id, re.IGNORECASE))`. -/
def validate_pdb_id (pdb_id : String) : Bool :=
  pdb_pattern_chars pdb_id.toList

/-- A `requests` response as the PDB wrappers use it after
`raise_for_status`: its `.text` body and its `.json()` parse, which may
itself raise. A failed request (network error or non-2xx status) is the
`Except.error` of the `httpGet` parameter instead. -/
structure HttpResp where
  text : String
  jsonBody : Except ReqExc PyVal

/-- `get_structure_info` from `src/PDB/pdb_server.py` (lines 30-51):
lower-case the ID, reject it before any request when it fails the
pattern, otherwise issue one GET (data API for `json` format, file
download otherwise) and convert any `RequestException` into an error
dict. Returns the list of URLs requested next to the result. -/
def get_structure_info (httpGet : String → Except ReqExc HttpResp)
    (pdb_id fmt : String) : List String × PyVal :=
  let p := py_lower pdb_id
  if validate_pdb_id p = false then
    ([], errObj ("Invalid PDB ID format: " ++ p ++
      ". Must be 4 characters (digit + 3 alphanumeric)."))
  else if fmt = "json" then
    let url := "https://data.rcsb.org/rest/v1/core/entry/" ++ p
    ([url],
      match httpGet url with
      | .ok r =>
        match r.jsonBody with
        | .ok j => j
        | .error (.mk m) => errObj ("Failed to fetch structure info: " ++ m)
      | .error (.mk m) => errObj ("Failed to fetch structure info: " ++ m))
  else
    let ext := if fmt = "mmcif" then "cif" else fmt
    let url := "https://files.rcsb.org/download/" ++ p ++ "." ++ ext
    ([url],
      match httpGet url with
      | .ok r => PyVal.pyDict
          [("pdb_id", .pyStr p), ("format", .pyStr fmt), ("data", .pyStr r.text)]
      | .error (.mk m) => errObj ("Failed to fetch structure info: " ++ m))

/-- `download_structure` from `src/PDB/pdb_server.py` (lines 135-164):
same validation guard (with its shorter message), one file GET whose URL
carries the assembly suffix when `assembly_id` is truthy. -/
def download_structure (httpGet : String → Except ReqExc HttpResp)
    (pdb_id fmt : String) (assembly_id : Option String) : List String × PyVal :=
  let p := py_lower pdb_id
  if validate_pdb_id p = false then
    ([], errObj ("Invalid PDB ID format: " ++ p))
  else
    let ext := if fmt = "mmcif" then "cif" else fmt
    let url :=
      match assembly_id with
      | some a =>
        if a.isEmpty then "https://files.rcsb.org/download/" ++ p ++ "." ++ ext
        else "https://files.rcsb.org/download/" ++ p ++ "-assembly" ++ a ++ "." ++ ext
      | none => "https://files.rcsb.org/download/" ++ p ++ "." ++ ext
    ([url],
      match httpGet url with
      | .ok r => PyVal.pyDict
          [("pdb_id", .pyStr p), ("format", .pyStr (py_upper fmt)),
           ("assembly_id", match assembly_id with | some a => .pyStr a | none => .pyNone),
           ("data", .pyStr r.text)]
      | .error (.mk m) => errObj ("Failed to download structure: " ++ m))

/-- `get_ligands` from `src/PDB/pdb_server.py` (lines 231-245): same
validation guard, one data-API GET, JSON body returned. -/
def get_ligands (httpGet : String → Except ReqExc HttpResp)
    (pdb_id : String) : List String × PyVal :=
  let p := py_lower pdb_id
  if validate_pdb_id p = false then
    ([], errObj ("Invalid PDB ID format: " ++ p))
  else
    let url := "https://data.rcsb.org/rest/v1/core/nonpolymer_entity/" ++ p
    ([url],
      match httpGet url with
      | .ok r =>
        match r.jsonBody with
        | .ok j => j
        | .error (.mk m) => errObj ("Failed to fetch ligands: " ++ m)
      | .error (.mk m) => errObj ("Failed to fetch ligands: " ++ m))

/-! ### OpenTargets response normalization
(`src/OpenTarget/opentarget_server.py`) -/

/-- Python `v.get(k, dflt)` on an arbitrary value: only a dict has
`.get`; anything else raises `AttributeError`. -/
def pyGetAttrGet (v : PyVal) (k : String) (dflt : PyVal) : Except PyExc PyVal :=
  match v with
  | .pyDict d => .ok (dictGet d k dflt)
  | _ => .error (.exc "AttributeError: object has no attribute get")

/-- Python `for x in v`: a list yields its elements, a string its
characters (as one-character strings), a dict its keys; numbers,
booleans and `None` raise `TypeError`. -/
def pyIter : PyVal → Except PyExc (List PyVal)
  | .pyList l => .ok l
  | .pyStr s => .ok (s.toList.map (fun c => PyVal.pyStr c.toString))
  | .pyDict d => .ok (d.map (fun p => PyVal.pyStr p.1))
  | _ => .error (.exc "TypeError: object is not iterable")

/-- A Python list comprehension `[f(x) for x in xs]` whose body may
raise: elements are produced left to right and the first exception
aborts the whole comprehension. -/
def exceptMapList (f : PyVal → Except PyExc PyVal) :
    List PyVal → Except PyExc (List PyVal)
  | [] => .ok []
  | x :: xs => do
    let y ← f x
    let ys ← exceptMapList f xs
    pure (y :: ys)

/-- `format_target_detailed` from `src/OpenTarget/opentarget_server.py`
(lines 57-69): `genomic_location = target.get("genomicLocation", {})`,
the `functions` list comprehension over
`target.get("functionDescriptions", [])` (each `f.get("label", "")`),
then the output dict in source order; the comprehension is evaluated
before the dict literal, whose `chromosome` entry calls
`genomic_location.get("chromosome")`. -/
def format_target_detailed (target : List (String × PyVal))
    (target_id : String) : Except PyExc (List (String × PyVal)) :=
  let genomic_location := dictGet target "genomicLocation" (PyVal.pyDict [])
  match pyIter (dictGet target "functionDescriptions" (PyVal.pyList [])) with
  | .error e => .error e
  | .ok fdIter =>
    match exceptMapList (fun f => pyGetAttrGet f "label" (PyVal.pyStr "")) fdIter with
    | .error e => .error e
    | .ok functions =>
      match pyGetAttrGet genomic_location "chromosome" PyVal.pyNone with
      | .error e => .error e
      | .ok chromosome =>
        .ok [("target_id", PyVal.pyStr target_id),
             ("name", dictGet target "approvedName" (PyVal.pyStr "No name")),
             ("symbol", dictGet target "approvedSymbol" (PyVal.pyStr "Unknown symbol")),
             ("biotype", dictGet target "biotype" PyVal.pyNone),
             ("chromosome", chromosome),
             ("gene_functions", PyVal.pyList functions)]

/-- Whether a value is a dict. -/
def PyVal.isDict : PyVal → Bool
  | .pyDict _ => true
  | _ => false

/-- The elements of a list value (else nothing). -/
def pyElems : PyVal → List PyVal
  | .pyList l => l
  | _ => []

/-- Whether a value is a list of dicts. -/
def allDictList : PyVal → Bool
  | .pyList l => l.all PyVal.isDict
  | _ => false

/-- Total `v.get(k, dflt)` for statement purposes: the binding on a
dict, the default otherwise. -/
def getAttrD (v : PyVal) (k : String) (dflt : PyVal) : PyVal :=
  match v with
  | .pyDict d => dictGet d k dflt
  | _ => dflt

/-! ### PubChem compound normalization (`src/PubChem/pubchem_server.py`) -/

/-- A `pubchempy.Compound` as `compound_to_dict` consumes it: every
property access yields the record's value or `None` when the underlying
record lacks it (modelled by `attrs` lookup with a `null` default), and
`synonyms` is a list. A compound object is always truthy; the falsy
input `None` is the `none` of the `Option` below. -/
structure PCCompound where
  attrs : List (String × PyVal)
  synonyms : List String

/-- `compound.<name>` property access. -/
def pcAttr (c : PCCompound) (name : String) : PyVal :=
  dictGet c.attrs name PyVal.pyNone

/-- The 25 output keys `compound_to_dict` declares (lines 25-51), in
source order. -/
def compoundKeys : List String :=
  ["cid", "iupac_name", "molecular_formula", "molecular_weight",
   "canonical_smiles", "isomeric_smiles", "inchi", "inchikey", "xlogp",
   "exact_mass", "monoisotopic_mass", "tpsa", "complexity", "charge",
   "h_bond_donor_count", "h_bond_acceptor_count", "rotatable_bond_count",
   "heavy_atom_count", "atom_stereo_count", "defined_atom_stereo_count",
   "undefined_atom_stereo_count", "bond_stereo_count",
   "defined_bond_stereo_count", "undefined_bond_stereo_count",
   "covalent_unit_count"]

/-- `compound_to_dict` from `src/PubChem/pubchem_server.py` (lines
20-57): `if not compound: return {}`; otherwise the 25-key record of
property reads, plus a `synonyms` key when `compound.synonyms` is a
non-empty list. -/
def compound_to_dict : Option PCCompound → List (String × PyVal)
  | none => []
  | some c =>
    let result := compoundKeys.map (fun k => (k, pcAttr c k))
    if c.synonyms.isEmpty then result
    else result ++ [("synonyms", PyVal.pyList (c.synonyms.map PyVal.pyStr))]

/-- C7: `categorize_frequency` realises the stated total, non-overlapping
partition of the non-negative counts: 0 ↦ "Not found", 1 ↦ "Unique",
2-10 ↦ "Very rare", 11-100 ↦ "Rare", 101-1000 ↦ "Uncommon",
1001-10000 ↦ "Common", and everything above 10000 ↦ "Very common". -/
theorem categorize_frequency_partitions (n : Int) (_hn : 0 ≤ n) :
    (n = 0 → categorize_frequency n = "Not found") ∧
    (n = 1 → categorize_frequency n = "Unique") ∧
    (2 ≤ n ∧ n ≤ 10 → categorize_frequency n = "Very rare") ∧
    (11 ≤ n ∧ n ≤ 100 → categorize_frequency n = "Rare") ∧
    (101 ≤ n ∧ n ≤ 1000 → categorize_frequency n = "Uncommon") ∧
    (1001 ≤ n ∧ n ≤ 10000 → categorize_frequency n = "Common") ∧
    (10000 < n → categorize_frequency n = "Very common") := by
  unfold categorize_frequency
  refine ⟨?_, ?_, ?_, ?_, ?_, ?_, ?_⟩ <;> intro h
  · simp [h]
  · simp [h]
  · rw [if_neg (by omega), if_neg (by omega), if_pos (by omega)]
  · rw [if_neg (by omega), if_neg (by omega), if_neg (by omega), if_pos (by omega)]
  · rw [if_neg (by omega), if_neg (by omega), if_neg (by omega), if_neg (by omega),
      if_pos (by omega)]
  · rw [if_neg (by omega), if_neg (by omega), if_neg (by omega), if_neg (by omega),
      if_neg (by omega), if_pos (by omega)]
  · rw [if_neg (by omega), if_neg (by omega), if_neg (by omega), if_neg (by omega),
      if_neg (by omega), if_neg (by omega)]

/-- Concrete instances of `categorize_frequency_partitions`, matching the
spec's scenario values. -/
theorem categorize_frequency_partitions_witness :
    categorize_frequency 0 = "Not found" ∧ categorize_frequency 1 = "Unique" ∧
    categorize_frequency 10000 = "Common" ∧ categorize_frequency 10001 = "Very common" :=
  ⟨(categorize_frequency_partitions 0 (by decide)).1 rfl,
   (categorize_frequency_partitions 1 (by decide)).2.1 rfl,
   (categorize_frequency_partitions 10000 (by decide)).2.2.2.2.2.1 (by decide),
   (categorize_frequency_partitions 10001 (by decide)).2.2.2.2.2.2 (by decide)⟩

/-! ### Helper lemmas: ASCII case folding and the PDB ID pattern -/

/-- `Char.ofNat` of a scalar below the surrogate range keeps its value. -/
theorem charOfNat_toNat (n : Nat) (h : n < 55296) : (Char.ofNat n).toNat = n := by
  simp [Char.ofNat, Char.isValidCharNat, Or.inl h, Char.toNat, UInt32.ofNat',
    Char.ofNatAux, UInt32.toNat]

/-- `Char.isDigit` through the scalar value. -/
theorem charIsDigit_eq (c : Char) :
    c.isDigit = (decide (48 ≤ c.toNat) && decide (c.toNat ≤ 57)) := by
  simp only [Char.isDigit, Char.toNat, GE.ge, UInt32.le_def, UInt32.toNat, BitVec.le_def]
  norm_num

/-- `Char.isUpper` through the scalar value. -/
theorem charIsUpper_eq (c : Char) :
    c.isUpper = (decide (65 ≤ c.toNat) && decide (c.toNat ≤ 90)) := by
  simp only [Char.isUpper, Char.toNat, GE.ge, UInt32.le_def, UInt32.toNat, BitVec.le_def]
  norm_num

/-- `Char.isLower` through the scalar value. -/
theorem charIsLower_eq (c : Char) :
    c.isLower = (decide (97 ≤ c.toNat) && decide (c.toNat ≤ 122)) := by
  simp only [Char.isLower, Char.toNat, GE.ge, UInt32.le_def, UInt32.toNat, BitVec.le_def]
  norm_num

/-- Lower-casing does not change digitness. -/
theorem toLower_isDigit (c : Char) : (Char.toLower c).isDigit = c.isDigit := by
  unfold Char.toLower
  simp only []
  split
  next h =>
    obtain ⟨h1, h2⟩ := h
    have hval : (Char.ofNat (c.toNat + 32)).toNat = c.toNat + 32 :=
      charOfNat_toNat _ (by omega)
    rw [charIsDigit_eq, charIsDigit_eq, hval]
    have e1 : (decide (48 ≤ c.toNat + 32) && decide (c.toNat + 32 ≤ 57)) = false := by
      simp; omega
    have e2 : (decide (48 ≤ c.toNat) && decide (c.toNat ≤ 57)) = false := by
      simp; omega
    rw [e1, e2]
  next => rfl

/-- Lower-casing does not change alphanumericity. -/
theorem toLower_isAlphanum (c : Char) :
    (Char.toLower c).isAlphanum = c.isAlphanum := by
  unfold Char.toLower
  simp only []
  split
  next h =>
    obtain ⟨h1, h2⟩ := h
    have hval : (Char.ofNat (c.toNat + 32)).toNat = c.toNat + 32 :=
      charOfNat_toNat _ (by omega)
    simp only [Char.isAlphanum, Char.isAlpha, charIsDigit_eq, charIsUpper_eq,
      charIsLower_eq, hval]
    have e1 : (decide (65 ≤ c.toNat + 32) && decide (c.toNat + 32 ≤ 90)) = false := by
      simp; omega
    have e2 : (decide (97 ≤ c.toNat + 32) && decide (c.toNat + 32 ≤ 122)) = true := by
      simp; omega
    have e3 : (decide (48 ≤ c.toNat + 32) && decide (c.toNat + 32 ≤ 57)) = false := by
      simp; omega
    have e4 : (decide (65 ≤ c.toNat) && decide (c.toNat ≤ 90)) = true := by
      simp; omega
    rw [e1, e2, e3, e4]
    simp
  next => rfl

/-- Lower-casing maps no character onto a newline. -/
theorem toLower_eq_newline_iff (c : Char) : (Char.toLower c = '\n') ↔ c = '\n' := by
  unfold Char.toLower
  simp only []
  split
  next h =>
    obtain ⟨h1, h2⟩ := h
    constructor
    · intro he
      have hv : (Char.ofNat (c.toNat + 32)).toNat = c.toNat + 32 :=
        charOfNat_toNat _ (by omega)
      rw [he] at hv
      have hnl : ('\n').toNat = 10 := rfl
      omega
    · intro he
      rw [he] at h1
      exact absurd h1 (by decide)
  next => exact Iff.rfl

/-- The pattern on a four-character list, unfolded. -/
theorem pat4_eq (a b c d : Char) :
    pdb_pattern_chars [a, b, c, d] =
      (a.isDigit && b.isAlphanum && c.isAlphanum && d.isAlphanum) := rfl

/-- The pattern on a five-character list, unfolded. -/
theorem pat5_eq (a b c d e : Char) :
    pdb_pattern_chars [a, b, c, d, e] =
      ((e = '\n') && (a.isDigit && b.isAlphanum && c.isAlphanum && d.isAlphanum)) := rfl

/-- The `^[0-9][a-zA-Z0-9]{3}$` pattern, being applied by the source
under `re.IGNORECASE`, is invariant under the ASCII lower-casing that
every PDB operation applies first. -/
theorem validate_py_lower (s : String) :
    validate_pdb_id (py_lower s) = validate_pdb_id s := by
  unfold validate_pdb_id py_lower String.toLower
  rw [String.map_eq]
  show pdb_pattern_chars (s.toList.map Char.toLower) = pdb_pattern_chars s.toList
  rcases s.toList with _ | ⟨c0, _ | ⟨c1, _ | ⟨c2, _ | ⟨c3, _ | ⟨c4, _ | ⟨c5, r⟩⟩⟩⟩⟩⟩ <;>
    simp only [List.map_cons, List.map_nil]
  all_goals first
    | rfl
    | (rw [pat4_eq, pat4_eq]
       simp only [toLower_isDigit, toLower_isAlphanum])
    | (rw [pat5_eq, pat5_eq]
       have hnl : (decide (c4.toLower = '\n')) = (decide (c4 = '\n')) := by
         simp [toLower_eq_newline_iff]
       simp only [toLower_isDigit, toLower_isAlphanum, hnl])

/-- C9: a `pdb_id` failing the 4-character pattern (one digit then three
alphanumerics) makes every embedded PDB operation that takes a `pdb_id`
return a structured error value and issue no network request; and the
validator decides the four scenario inputs as the spec states. -/
theorem invalid_pdb_id_rejected_without_network
    (httpGet : String → Except ReqExc HttpResp)
    (s fmt : String) (assembly_id : Option String)
    (h : validate_pdb_id s = false) :
    get_structure_info httpGet s fmt =
      ([], errObj ("Invalid PDB ID format: " ++ py_lower s ++
        ". Must be 4 characters (digit + 3 alphanumeric).")) ∧
    download_structure httpGet s fmt assembly_id =
      ([], errObj ("Invalid PDB ID format: " ++ py_lower s)) ∧
    get_ligands httpGet s =
      ([], errObj ("Invalid PDB ID format: " ++ py_lower s)) ∧
    (validate_pdb_id "1ABC" = true ∧ validate_pdb_id "ABC1" = false ∧
     validate_pdb_id "12345" = false ∧ validate_pdb_id "" = false) := by
  have hl : validate_pdb_id (py_lower s) = false := by
    rw [validate_py_lower]; exact h
  refine ⟨?_, ?_, ?_, by decide, by decide, by decide, by decide⟩
  · unfold get_structure_info
    simp only [hl, if_pos]
  · unfold download_structure
    simp only [hl, if_pos]
  · unfold get_ligands
    simp only [hl, if_pos]

/-- `invalid_pdb_id_rejected_without_network` at the scenario input
`"ABC1"`. -/
theorem invalid_pdb_id_rejected_without_network_witness :
    validate_pdb_id "ABC1" = false ∧
    get_structure_info (fun _ => Except.error (ReqExc.mk "unreachable"))
        "ABC1" "json" =
      ([], errObj ("Invalid PDB ID format: " ++ py_lower "ABC1" ++
        ". Must be 4 characters (digit + 3 alphanumeric).")) :=
  ⟨by decide,
   (invalid_pdb_id_rejected_without_network
     (fun _ => Except.error (ReqExc.mk "unreachable"))
     "ABC1" "json" none (by decide)).1⟩

/-- C1 (counterexample): an operation raising an ordinary exception under
the ChEMBL guard stack leaves the guard as that same raised exception —
it is not converted into a returned error-status value, so the exception
does propagate past the guard to the caller. -/
theorem guard_reraises_counterexample :
    (guarded 30 { duration := 1, outcome := Except.error (PyExc.exc "network failure") }
        : AsyncOp Nat) =
      { duration := 1, outcome := Except.error (PyExc.exc "network failure") } := by
  unfold guarded async_timeout error_handler
  rw [if_pos (by norm_num)]

/-- C1 (amended): the PDB `search_structures` wrapper catches a
`RequestException` from its request (network failure, non-2xx status,
malformed body) and returns `{"error": ...}` carrying the original
message — nothing escapes it; the ChEMBL `error_handler`, by contrast,
catches, logs, and re-raises the operation's exception unchanged, so
exceptions do propagate past that guard. -/
theorem guard_error_conversion
    (post : SearchRequestQ → Except ReqExc PyVal) (q : String) (limit : Int)
    (sb : String) (em rr : Option String) {α : Type} :
    (∀ m, post (search_structures_query q limit sb em rr) = .error (.mk m) →
      search_structures_run post q limit sb em rr =
        errObj ("Failed to search structures: " ++ m)) ∧
    (∀ j, post (search_structures_query q limit sb em rr) = .ok j →
      search_structures_run post q limit sb em rr = j) ∧
    (∀ (d : ℚ) (e : PyExc),
      error_handler ({ duration := d, outcome := .error e } : AsyncOp α) =
        { duration := d, outcome := .error e }) := by
  refine ⟨?_, ?_, ?_⟩
  · intro m hm
    unfold search_structures_run
    rw [hm]
  · intro j hj
    unfold search_structures_run
    rw [hj]
  · intro d e
    cases e <;> rfl

/-- `guard_error_conversion` at a failing request and a raised
exception. -/
theorem guard_error_conversion_witness :
    search_structures_run (fun _ => Except.error (ReqExc.mk "boom"))
        "insulin" 25 "score" none none =
      errObj ("Failed to search structures: boom") ∧
    error_handler ({ duration := 1, outcome := Except.error (PyExc.exc "boom") }
        : AsyncOp Nat) =
      { duration := 1, outcome := Except.error (PyExc.exc "boom") } :=
  ⟨(guard_error_conversion (fun _ => Except.error (ReqExc.mk "boom"))
      "insulin" 25 "score" none none (α := Nat)).1 "boom" rfl,
   (guard_error_conversion (fun _ => Except.error (ReqExc.mk "boom"))
      "insulin" 25 "score" none none (α := Nat)).2.2 1 (PyExc.exc "boom")⟩

/-- C2: under the ChEMBL guard stack with timeout `t`, an operation whose
work completes within `t` seconds has its payload delivered with the
elapsed time (its duration, non-negative) observed by the guard; an
operation that does not complete within `t` seconds yields the raised
`TimeoutError` outcome and its late payload is never delivered. -/
theorem guarded_timeout_contract {α : Type} (op : AsyncOp α) (t : Int)
    (h0 : 0 ≤ op.duration) :
    (op.duration ≤ (t : ℚ) → ∀ a : α, op.outcome = .ok a →
      guarded t op = { duration := op.duration, outcome := .ok a } ∧
      0 ≤ (guarded t op).duration) ∧
    ((t : ℚ) < op.duration →
      (guarded t op).outcome =
        .error (.timeoutError s!"Function execution exceeded {t} seconds") ∧
      ∀ a : α, (guarded t op).outcome ≠ .ok a) := by
  obtain ⟨d, o⟩ := op
  simp only at h0
  constructor
  · intro hle a ha
    simp only at hle ha
    subst ha
    unfold guarded async_timeout error_handler
    rw [if_pos hle]
    exact ⟨rfl, h0⟩
  · intro hlt
    simp only at hlt
    unfold guarded async_timeout error_handler
    rw [if_neg (not_le.mpr hlt)]
    exact ⟨rfl, fun a h => Except.noConfusion h⟩

/-- `guarded_timeout_contract` at a fast and at a slow operation. -/
theorem guarded_timeout_contract_witness :
    guarded 30 ({ duration := 2, outcome := .ok 42 } : AsyncOp Nat) =
      { duration := 2, outcome := .ok 42 } ∧
    (guarded 30 ({ duration := 50, outcome := .ok 7 } : AsyncOp Nat)).outcome =
      .error (.timeoutError "Function execution exceeded 30 seconds") :=
  ⟨((guarded_timeout_contract ({ duration := 2, outcome := .ok 42 } : AsyncOp Nat)
       30 (by decide)).1 (by decide) 42 rfl).1,
   ((guarded_timeout_contract ({ duration := 50, outcome := .ok 7 } : AsyncOp Nat)
       30 (by decide)).2 (by decide)).1⟩

/-- C3 (counterexample): the sureChEMBL patent search composes its
request from the caller's `offset`; at `limit = 25, offset = 25` the
composed request denotes a start offset of 25, not the fixed 0 the claim
asserts for every search operation. -/
theorem patents_start_not_fixed_zero :
    (search_patents_params "KRAS" 25 25 "US OR EP OR WO OR JP OR CN").map
        patents_start_offset = .ok 25 ∧
    (search_patents_params "KRAS" 25 25 "US OR EP OR WO OR JP OR CN").map
        patents_start_offset ≠ .ok 0 := by
  constructor
  · rfl
  · intro h
    simp [search_patents_params, patents_start_offset, Except.map] at h

/-- C3 (amended): every embedded search operation places
`min(requestedLimit, 1000)` in its rows/items-per-page field; the three
PDB search requests fix `start = 0`, while the sureChEMBL patent search
instead sends `page = (offset // limit) + 1` computed from the caller's
offset (so its start offset is `(page - 1) * itemsPerPage`, not fixed at
0). -/
theorem rows_min_limit_1000 (q uid sq sb po : String) (limit offset : Int)
    (em rr : Option String) (idc : ℚ) (h : limit ≠ 0) :
    ((search_structures_query q limit sb em rr).rows = min limit 1000 ∧
     (search_structures_query q limit sb em rr).start = 0) ∧
    ((search_by_uniprot_query uid limit).rows = min limit 1000 ∧
     (search_by_uniprot_query uid limit).start = 0) ∧
    ((search_by_sequence_query sq limit idc).rows = min limit 1000 ∧
     (search_by_sequence_query sq limit idc).start = 0) ∧
    search_patents_params q limit offset po =
      .ok { query := q ++ " AND ((pnctry:(" ++ po ++ ")))",
            page := Int.fdiv offset limit + 1,
            itemsPerPage := min limit 1000 } := by
  refine ⟨⟨rfl, rfl⟩, ⟨rfl, rfl⟩, ⟨rfl, rfl⟩, ?_⟩
  unfold search_patents_params
  rw [if_neg h]

/-- `rows_min_limit_1000` at `limit = 2500, offset = 0`. -/
theorem rows_min_limit_1000_witness :
    (search_structures_query "insulin" 2500 "score" none none).rows = 1000 ∧
    (search_structures_query "insulin" 2500 "score" none none).start = 0 ∧
    search_patents_params "KRAS" 2500 0 "US" =
      .ok { query := "KRAS AND ((pnctry:(US)))", page := 1, itemsPerPage := 1000 } := by
  have h := rows_min_limit_1000 "insulin" "P01308" "MKT" "score" "US" 2500 0
    none none 0.9 (by decide)
  have h2 := rows_min_limit_1000 "KRAS" "P01308" "MKT" "score" "US" 2500 0
    none none 0.9 (by decide)
  exact ⟨h.1.1, h.1.2, h2.2.2.2⟩

/-- C4: composing the PDB base query with the accumulated filters leaves
the base node untouched when no filter was produced, and otherwise wraps
it in a group node with logical operator `and` whose ordered children
are the base node first, then the filters — all terminal nodes — in
their input order. -/
theorem compose_filters_grouping (q sb : String) (limit : Int)
    (em rr : Option String) :
    ((search_structures_filters em rr).isEmpty = true →
      (search_structures_query q limit sb em rr).query = fullTextNode q) ∧
    ((search_structures_filters em rr).isEmpty = false →
      (search_structures_query q limit sb em rr).query =
        .group "and" (fullTextNode q :: search_structures_filters em rr)) ∧
    (∀ f ∈ search_structures_filters em rr, f.isTerminal = true) := by
  refine ⟨?_, ?_, ?_⟩
  · intro h
    unfold search_structures_query
    simp only [h, if_pos]
  · intro h
    unfold search_structures_query
    simp only [h, Bool.false_eq_true, if_false]
  · intro f hf
    unfold search_structures_filters at hf
    rcases List.mem_append.mp hf with hm | hm
    · unfold methodFilter at hm
      rcases em with _ | m
      · simp at hm
      · by_cases hme : m.isEmpty <;> simp [hme] at hm
        subst hm; rfl
    · unfold resolutionFilterOpt at hm
      rcases rr with _ | r
      · simp at hm
      · by_cases hre : r.isEmpty
        · simp [hre] at hm
        · simp only [hre, Bool.false_eq_true, if_false] at hm
          unfold resolutionFilter at hm
          rcases hsp : pySplitDash r with _ | ⟨p0, _ | ⟨p1, _ | _⟩⟩ <;>
            rw [hsp] at hm <;> try simp at hm
          rcases hp0 : pyFloat? p0 with _ | lo <;> rcases hp1 : pyFloat? p1 with _ | hi <;>
            rw [hp0, hp1] at hm <;> simp at hm
          subst hm; rfl

/-- `compose_filters_grouping` with no filters and with a method
filter. -/
theorem compose_filters_grouping_witness :
    (search_structures_query "insulin" 25 "score" none none).query =
      fullTextNode "insulin" ∧
    (search_structures_query "insulin" 25 "score" (some "X-RAY DIFFRACTION") none).query =
      QueryNode.group "and" [fullTextNode "insulin",
        QueryNode.terminal "text" (some "exptl.method") (some "exact_match")
          (QueryValue.str "X-RAY DIFFRACTION")] :=
  ⟨(compose_filters_grouping "insulin" "score" 25 none none).1 rfl,
   (compose_filters_grouping "insulin" "score" 25 (some "X-RAY DIFFRACTION") none).2.1 rfl⟩

/-- A string whose `split('-')` has two parts is non-empty (the empty
string splits into the single part `[""]`). -/
theorem splitOn_pair_not_empty {rr p0 p1 : String}
    (h : pySplitDash rr = [p0, p1]) : rr.isEmpty = false := by
  by_cases he : rr.isEmpty = true
  · have hrr : rr = "" := (String.isEmpty_iff rr).mp he
    subst hrr
    have hv : pySplitDash "" = [""] := rfl
    rw [hv] at h
    exact absurd h (by simp)
  · simpa using he

/-- C5: a resolution-range string splitting on `-` into exactly two
parts that both parse as floats yields the range filter criterion
`{from, to, include_lower: true, include_upper: true}` attached under
the AND group; any other string (wrong part count or unparsable text)
contributes nothing — no error, and the base query is unchanged. -/
theorem resolution_range_parsing (rr q sb : String) (limit : Int) :
    (∀ p0 p1 lo hi, pySplitDash rr = [p0, p1] →
      pyFloat? p0 = some lo → pyFloat? p1 = some hi →
      resolutionFilterOpt (some rr) = [resolutionNode lo hi] ∧
      (search_structures_query q limit sb none (some rr)).query =
        .group "and" [fullTextNode q, resolutionNode lo hi]) ∧
    (resolutionFilter rr = [] →
      resolutionFilterOpt (some rr) = [] ∧
      (search_structures_query q limit sb none (some rr)).query = fullTextNode q) := by
  constructor
  · intro p0 p1 lo hi hsp hp0 hp1
    have hne : rr.isEmpty = false := splitOn_pair_not_empty hsp
    have hfil : resolutionFilter rr = [resolutionNode lo hi] := by
      unfold resolutionFilter
      rw [hsp]
      simp only [hp0, hp1]
    have hopt : resolutionFilterOpt (some rr) = [resolutionNode lo hi] := by
      show (if rr.isEmpty = true then [] else resolutionFilter rr) = _
      rw [hne]
      simpa using hfil
    refine ⟨hopt, ?_⟩
    unfold search_structures_query search_structures_filters methodFilter
    rw [hopt]
    rfl
  · intro hfil
    have hopt : resolutionFilterOpt (some rr) = [] := by
      show (if rr.isEmpty = true then [] else resolutionFilter rr) = _
      by_cases he : rr.isEmpty = true
      · rw [he]
        simp
      · rw [Bool.not_eq_true] at he
        rw [he]
        simpa using hfil
    refine ⟨hopt, ?_⟩
    unfold search_structures_query search_structures_filters methodFilter
    rw [hopt]
    rfl

/-- `resolution_range_parsing` at the scenario inputs `"1.0-2.0"` and
`"bad"`. -/
theorem resolution_range_parsing_witness :
    (search_structures_query "insulin" 25 "score" none (some "1.0-2.0")).query =
      QueryNode.group "and" [fullTextNode "insulin", resolutionNode 1 2] ∧
    (search_structures_query "insulin" 25 "score" none (some "bad")).query =
      fullTextNode "insulin" :=
  ⟨((resolution_range_parsing "1.0-2.0" "insulin" "score" 25).1
      "1.0" "2.0" 1 2 rfl
      (by simp [pyFloat?, pyStrip, isPySpace, parseUnsigned, parseExpPart, digitsVal])
      (by simp [pyFloat?, pyStrip, isPySpace, parseUnsigned, parseExpPart, digitsVal,
        show (20 : ℚ) / 10 = 2 from by norm_num])).2,
   ((resolution_range_parsing "bad" "insulin" "score" 25).2 rfl).2⟩

/-- The comprehension `[f.get("label", "") for f in l]` over a list of
dicts succeeds and produces the total lookups. -/
theorem exceptMapList_dicts (l : List PyVal) (h : l.all PyVal.isDict = true) :
    exceptMapList (fun f => pyGetAttrGet f "label" (PyVal.pyStr "")) l =
      .ok (l.map (fun f => getAttrD f "label" (PyVal.pyStr ""))) := by
  induction l with
  | nil => rfl
  | cons x xs ih =>
    simp only [List.all_cons, Bool.and_eq_true] at h
    obtain ⟨hx, hxs⟩ := h
    cases x with
    | pyNone => exact absurd hx (by simp [PyVal.isDict])
    | pyBool b => exact absurd hx (by simp [PyVal.isDict])
    | pyNum q => exact absurd hx (by simp [PyVal.isDict])
    | pyStr st => exact absurd hx (by simp [PyVal.isDict])
    | pyList el => exact absurd hx (by simp [PyVal.isDict])
    | pyDict d =>
      simp only [exceptMapList, ih hxs]
      rfl

/-- C6 (amended): when every nested segment that is present has the
expected shape (`genomicLocation` a dict, `functionDescriptions` a list
of dicts), the OpenTargets normalizer returns a record that binds every
declared output key — missing keys at any depth become the declared
defaults — and raises nothing; and the PubChem normalizer on any truthy
compound binds exactly its declared keys (plus `synonyms` when
non-empty). A wrong-typed intermediate value, however, raises instead of
defaulting (see the counterexample). -/
theorem normalize_defaults (target : List (String × PyVal)) (tid : String)
    (hg : (dictGet target "genomicLocation" (PyVal.pyDict [])).isDict = true)
    (hf : allDictList (dictGet target "functionDescriptions" (PyVal.pyList [])) = true) :
    format_target_detailed target tid = Except.ok
      [("target_id", PyVal.pyStr tid),
       ("name", dictGet target "approvedName" (PyVal.pyStr "No name")),
       ("symbol", dictGet target "approvedSymbol" (PyVal.pyStr "Unknown symbol")),
       ("biotype", dictGet target "biotype" PyVal.pyNone),
       ("chromosome",
         getAttrD (dictGet target "genomicLocation" (PyVal.pyDict [])) "chromosome" PyVal.pyNone),
       ("gene_functions",
         PyVal.pyList ((pyElems (dictGet target "functionDescriptions" (PyVal.pyList []))).map
           (fun f => getAttrD f "label" (PyVal.pyStr ""))))] ∧
    (∀ c : PCCompound, (compound_to_dict (some c)).map Prod.fst =
      compoundKeys ++ (if c.synonyms.isEmpty then [] else ["synonyms"])) := by
  constructor
  · obtain ⟨l, hfd, hall⟩ : ∃ l,
        dictGet target "functionDescriptions" (PyVal.pyList []) = PyVal.pyList l ∧
        l.all PyVal.isDict = true := by
      rcases hv : dictGet target "functionDescriptions" (PyVal.pyList []) with
          _ | b | n | st | ll | d <;> rw [hv] at hf <;>
        first
          | exact ⟨ll, rfl, by simpa [allDictList] using hf⟩
          | exact absurd hf (by simp [allDictList])
    obtain ⟨d, hgl⟩ : ∃ d,
        dictGet target "genomicLocation" (PyVal.pyDict []) = PyVal.pyDict d := by
      rcases hv : dictGet target "genomicLocation" (PyVal.pyDict []) with
          _ | b | n | st | ll | dd <;> rw [hv] at hg <;>
        first
          | exact ⟨dd, rfl⟩
          | exact absurd hg (by simp [PyVal.isDict])
    unfold format_target_detailed
    rw [hfd, hgl]
    simp only [pyIter]
    rw [exceptMapList_dicts l hall]
    simp only [pyGetAttrGet, pyElems, getAttrD]
  · intro c
    unfold compound_to_dict
    by_cases hs : c.synonyms.isEmpty = true <;>
      simp [hs, List.map_map] <;> rfl

/-- `normalize_defaults` at a target record missing everything but the
symbol, and at an attribute-less compound. -/
theorem normalize_defaults_witness :
    format_target_detailed [("approvedSymbol", PyVal.pyStr "BRAF")] "ENSG00000157764" =
      Except.ok
        [("target_id", PyVal.pyStr "ENSG00000157764"),
         ("name", PyVal.pyStr "No name"),
         ("symbol", PyVal.pyStr "BRAF"),
         ("biotype", PyVal.pyNone),
         ("chromosome", PyVal.pyNone),
         ("gene_functions", PyVal.pyList [])] ∧
    (compound_to_dict (some { attrs := [], synonyms := [] })).map Prod.fst =
      compoundKeys := by
  have h := normalize_defaults [("approvedSymbol", PyVal.pyStr "BRAF")]
    "ENSG00000157764" rfl rfl
  refine ⟨h.1, ?_⟩
  have h2 := h.2 { attrs := [], synonyms := [] }
  simpa using h2

/-- C6 (counterexample): a wrong-typed `genomicLocation` (a number where
a dict is expected) makes the OpenTargets normalizer raise an
`AttributeError` instead of producing the default; and the PubChem
normalizer on a falsy compound returns an empty record that omits every
declared key. -/
theorem normalize_wrong_type_counterexample :
    format_target_detailed [("genomicLocation", PyVal.pyNum 7)] "ENSG00000157764" =
      Except.error (PyExc.exc "AttributeError: object has no attribute get") ∧
    compound_to_dict none = [] :=
  ⟨rfl, rfl⟩

/-- C8: the rarity score is 0 at count 0, 1 at count 1, follows
`max(0, 1 - log10(count)/6)` for counts ≥ 2, stays within `[0, 1]` for
every non-negative count, and is non-increasing in the count from 1
upward. -/
theorem calculate_rarity_score_spec :
    calculate_rarity_score 0 = 0 ∧
    calculate_rarity_score 1 = 1 ∧
    (∀ n : Int, 2 ≤ n →
      calculate_rarity_score n = max 0 (1 - Real.logb 10 (n : ℝ) / 6)) ∧
    (∀ n : Int, 0 ≤ n →
      0 ≤ calculate_rarity_score n ∧ calculate_rarity_score n ≤ 1) ∧
    (∀ a b : Int, 1 ≤ a → a ≤ b →
      calculate_rarity_score b ≤ calculate_rarity_score a) := by
  have hformula : ∀ n : Int, 2 ≤ n →
      calculate_rarity_score n = max 0 (1 - Real.logb 10 (n : ℝ) / 6) := by
    intro n hn
    unfold calculate_rarity_score
    rw [if_neg (by omega), if_neg (by omega)]
    norm_num
  have h0 : calculate_rarity_score 0 = 0 := by
    unfold calculate_rarity_score
    norm_num
  have h1 : calculate_rarity_score 1 = 1 := by
    unfold calculate_rarity_score
    norm_num
  have hbounds : ∀ n : Int, 0 ≤ n →
      0 ≤ calculate_rarity_score n ∧ calculate_rarity_score n ≤ 1 := by
    intro n hn
    by_cases hz : n = 0
    · rw [hz, h0]; norm_num
    by_cases ho : n = 1
    · rw [ho, h1]; norm_num
    have h2 : 2 ≤ n := by omega
    rw [hformula n h2]
    constructor
    · exact le_max_left 0 _
    · apply max_le (by norm_num)
      have hlog : 0 ≤ Real.logb 10 (n : ℝ) :=
        Real.logb_nonneg (by norm_num) (by exact_mod_cast (by omega : 1 ≤ n))
      have : 0 ≤ Real.logb 10 (n : ℝ) / 6 := by positivity
      linarith
  refine ⟨h0, h1, hformula, hbounds, ?_⟩
  intro a b ha hab
  by_cases hone : a = 1
  · rw [hone, h1]
    exact (hbounds b (by omega)).2
  have ha2 : 2 ≤ a := by omega
  have hb2 : 2 ≤ b := by omega
  rw [hformula a ha2, hformula b hb2]
  apply max_le_max le_rfl
  have hlog : Real.logb 10 (a : ℝ) ≤ Real.logb 10 (b : ℝ) :=
    Real.logb_le_logb_of_le (by norm_num)
      (by exact_mod_cast (by omega : (0 : Int) < a)) (by exact_mod_cast hab)
  linarith

/-- `calculate_rarity_score_spec` at counts 5 and the pair (2, 5). -/
theorem calculate_rarity_score_spec_witness :
    0 ≤ calculate_rarity_score 5 ∧ calculate_rarity_score 5 ≤ 1 ∧
    calculate_rarity_score 5 ≤ calculate_rarity_score 2 :=
  ⟨(calculate_rarity_score_spec.2.2.2.1 5 (by decide)).1,
   (calculate_rarity_score_spec.2.2.2.1 5 (by decide)).2,
   calculate_rarity_score_spec.2.2.2.2 2 5 (by decide) (by decide)⟩

/-- C10: the bulk chemical export returns the structured 100-ID-maximum
error and issues no request when given more than 100 IDs, and issues
exactly one `export/chemistry` request carrying the comma-joined IDs
otherwise. -/
theorem export_chemicals_limit {β : Type} (api : ExportCall → Except ReqExc β)
    (b64encode : β → String) (ids : List String) (ot kd : String) :
    (ids.length > 100 →
      export_chemicals api b64encode ids ot kd =
        ([], errObj "Maximum 100 chemical IDs allowed per export")) ∧
    (ids.length ≤ 100 →
      (export_chemicals api b64encode ids ot kd).1 =
        [⟨"export/chemistry", String.intercalate "," ids, ot, kd⟩]) := by
  constructor
  · intro h
    unfold export_chemicals
    rw [if_pos h]
  · intro h
    unfold export_chemicals
    rw [if_neg (by omega)]

/-- `export_chemicals_limit` at 101 IDs and at two IDs. -/
theorem export_chemicals_limit_witness :
    export_chemicals (fun _ => Except.error (ReqExc.mk "unreachable"))
        (fun _ : Unit => "") (List.replicate 101 "SCHEMBL1") "csv" "cid" =
      ([], errObj "Maximum 100 chemical IDs allowed per export") ∧
    (export_chemicals (fun _ => Except.error (ReqExc.mk "down"))
        (fun _ : Unit => "") ["SCHEMBL1", "SCHEMBL2"] "csv" "cid").1 =
      [⟨"export/chemistry", "SCHEMBL1,SCHEMBL2", "csv", "cid"⟩] :=
  ⟨(export_chemicals_limit (fun _ => Except.error (ReqExc.mk "unreachable"))
      (fun _ : Unit => "") (List.replicate 101 "SCHEMBL1") "csv" "cid").1 (by simp),
   (export_chemicals_limit (fun _ => Except.error (ReqExc.mk "down"))
      (fun _ : Unit => "") ["SCHEMBL1", "SCHEMBL2"] "csv" "cid").2 (by simp)⟩
